import Mathlib

/-!
Verification of the todo-me Python client (`docs/examples/python-client.py`)
against its natural-language specification.

The client's data is parsed JSON (Python dicts, lists, strings, numbers,
booleans, None).  We embed it as the inductive type `Json`; a Python dict is a
`List (String × Json)` in insertion order (Python dicts preserve insertion
order and have unique keys; `List.lookup` finds the first, hence the only,
binding).  Fallible Python code is embedded as functions into small outcome
types: a `TodoMeError` raise is one constructor, any other Python exception
(`KeyError`, `AttributeError`, `TypeError`) is the `pyError` constructor.
-/

/-- A parsed JSON value, i.e. what Python's `response.json()` yields. -/
inductive Json where
  | null
  | bool (b : Bool)
  | num (n : Int)
  | str (s : String)
  | arr (elems : List Json)
  | obj (fields : List (String × Json))

/-- Python truthiness of a parsed JSON value: `None`, `False`, `0`, `""`,
`[]` and `{}` are falsy, everything else is truthy. -/
def Json.isTruthy : Json → Bool
  | .null => false
  | .bool b => b
  | .num n => n != 0
  | .str s => s != ""
  | .arr elems => !elems.isEmpty
  | .obj fields => !fields.isEmpty

/-- Truthiness of `d.get(k)`: a missing key yields Python `None`, which is
falsy; otherwise the value's own truthiness. -/
def pyGetTruthy (d : List (String × Json)) (k : String) : Bool :=
  match d.lookup k with
  | none => false
  | some v => v.isTruthy

/-- Python dict assignment `d[k] = v`: replaces the value at an existing key
in place, otherwise appends the new binding (insertion order). -/
def pyDictSet (d : List (String × Json)) (k : String) (v : Json) :
    List (String × Json) :=
  match d with
  | [] => [(k, v)]
  | (k', v') :: rest =>
      if k' = k then (k, v) :: rest else (k', v') :: pyDictSet rest k v

/-- The structured error raised by the client (`class TodoMeError`): `code`,
`message` and `details` are whatever Python values were passed, with Python
`None` embedded as `Json.null`. -/
structure TodoMeError where
  code : Json
  message : Json
  details : Json

/-- Outcome of `TodoMeClient._request` applied to a parsed response body:
either the unwrapped data payload, a raised `TodoMeError`, or a raised
non-`TodoMeError` Python exception (`AttributeError` when the body's `error`
field is present but not a dict). -/
inductive ReqOutcome where
  | ok (data : Json)
  | apiError (e : TodoMeError)
  | pyError

/-- The envelope-unwrapping step of `TodoMeClient._request` (lines 48-58 of
`python-client.py`), applied to the parsed response body:

    if not data.get("success"):
        error = data.get("error", \x7b\x7d)
        raise TodoMeError(
            code=error.get("code", "UNKNOWN_ERROR"),
            message=error.get("message", "Unknown error"),
            details=error.get("details"),
        )
    return data.get("data", \x7b\x7d)

Every public operation of the client returns this function's `ok` payload or
propagates its raise. -/
def unwrapEnvelope (body : List (String × Json)) : ReqOutcome :=
  if pyGetTruthy body "success" then
    .ok ((body.lookup "data").getD (.obj []))
  else
    match (body.lookup "error").getD (.obj []) with
    | .obj errFields =>
        .apiError
          { code := (errFields.lookup "code").getD (.str "UNKNOWN_ERROR")
            message := (errFields.lookup "message").getD (.str "Unknown error")
            details := (errFields.lookup "details").getD .null }
    | _ => .pyError

mutual

/-- Python's `repr()` of a parsed JSON value (string escaping inside quotes is
not reproduced; no claim evaluates `repr` on a string containing a quote). -/
def pyRepr : Json → String
  | .null => "None"
  | .bool true => "True"
  | .bool false => "False"
  | .num n => toString n
  | .str s => "'" ++ s ++ "'"
  | .arr elems => "[" ++ pyReprElems elems ++ "]"
  | .obj fields => "\x7b" ++ pyReprFields fields ++ "\x7d"

/-- Comma-separated `repr`s of the elements of a Python list. -/
def pyReprElems : List Json → String
  | [] => ""
  | [x] => pyRepr x
  | x :: xs => pyRepr x ++ ", " ++ pyReprElems xs

/-- Comma-separated `repr`s of the entries of a Python dict. -/
def pyReprFields : List (String × Json) → String
  | [] => ""
  | [(k, v)] => "'" ++ k ++ "': " ++ pyRepr v
  | (k, v) :: fs => "'" ++ k ++ "': " ++ pyRepr v ++ ", " ++ pyReprFields fs

end

/-- Python's `str()`, as used by an f-string such as `f"Bearer \x7btoken\x7d"`:
the string itself for strings, `repr` otherwise. -/
def pyStr : Json → String
  | .str s => s
  | j => pyRepr j

/-- Python `s.rstrip("/")`: remove every trailing slash. -/
def pyRstripSlash (s : String) : String :=
  ⟨(s.data.reverse.dropWhile (fun c => c == '/')).reverse⟩

/-- Python `s.lstrip("/")`: remove every leading slash. -/
def pyLstripSlash (s : String) : String :=
  ⟨s.data.dropWhile (fun c => c == '/')⟩

/-- Python dict assignment on string-valued headers, same replace-or-append
semantics as `pyDictSet` (models `self.session.headers[k] = v`). -/
def setHeader (hs : List (String × String)) (k v : String) :
    List (String × String) :=
  match hs with
  | [] => [(k, v)]
  | (k', v') :: rest =>
      if k' = k then (k, v) :: rest else (k', v') :: setHeader rest k v

/-- The mutable state of a `TodoMeClient` instance: the normalized base URL
and the session headers carrying the bearer credential. -/
structure Client where
  base_url : String
  headers : List (String × String)

/-- `TodoMeClient.__init__`: strip trailing slashes from the base URL and set
the `Authorization` and `Content-Type` session headers. -/
def Client.init (base_url api_token : String) : Client :=
  { base_url := pyRstripSlash base_url
    headers := [("Authorization", "Bearer " ++ api_token),
                ("Content-Type", "application/json")] }

/-- An outbound HTTP request as `TodoMeClient._request` hands it to
`self.session.request`: method, joined URL, the session headers attached to
the call, optional query parameters and optional JSON body. -/
structure HttpRequest where
  method : String
  url : String
  headers : List (String × String)
  params : List (String × Json)
  body : Option Json

/-- The request-building half of `TodoMeClient._request`: join the base URL
with the endpooint (leading slash stripped) and attach the session headers. -/
def Client.request_of (c : Client) (method endpoint : String)
    (params : List (String × Json)) (body : Option Json) : HttpRequest :=
  { method := method
    url := c.base_url ++ "/" ++ pyLstripSlash endpoint
    headers := c.headers
    params := params
    body := body }

/-- Outcome of `TodoMeClient.refresh_token` given the parsed body of the
service's response to `POST /auth/refresh`. -/
inductive RefreshOutcome where
  | ok (token : Json)
  | apiError (e : TodoMeError)
  | pyError

/-- `TodoMeClient.refresh_token`: unwrap the response envelope, read
`data["token"]` (a `KeyError`/`TypeError`, modelled as `pyError`, when absent
or when the payload is not a dict), and on success assign
`self.session.headers["Authorization"] = f"Bearer \x7bnew_token\x7d"`.
Returns the client state after the call together with the outcome. -/
def Client.refresh_token (c : Client) (respBody : List (String × Json)) :
    Client × RefreshOutcome :=
  match unwrapEnvelope respBody with
  | .ok d =>
      match d with
      | .obj dataFields =>
          match dataFields.lookup "token" with
          | some tok =>
              ({ c with
                  headers := setHeader c.headers "Authorization"
                    ("Bearer " ++ pyStr tok) },
               .ok tok)
          | none => (c, .pyError)
      | _ => (c, .pyError)
  | .apiError e => (c, .apiError e)
  | .pyError => (c, .pyError)

/-- Outcome of the classmethods `TodoMeClient.register` and
`TodoMeClient.login` given the parsed body of the service's response: `ok`
carries the token the new authenticated client is constructed with. -/
inductive AuthOutcome where
  | ok (token : Json)
  | apiError (e : TodoMeError)
  | pyError

/-- `TodoMeClient.register` applied to the parsed response body:

    if not data.get("success"):
        error = data.get("error", \x7b\x7d)
        raise TodoMeError(
            code=error.get("code"),
            message=error.get("message"),
        )
    return cls(base_url, data["data"]["token"])

Note: unlike `_request`, `code` and `message` get no defaults (Python `None`,
i.e. `Json.null`, when absent) and `details` is never passed (its constructor
default is `None`).  `data["data"]["token"]` raises `KeyError`/`TypeError`
(`pyError`) when the fields are missing or not dicts. -/
def registerOutcome (body : List (String × Json)) : AuthOutcome :=
  if pyGetTruthy body "success" then
    match body.lookup "data" with
    | some (.obj dataFields) =>
        match dataFields.lookup "token" with
        | some tok => .ok tok
        | none => .pyError
    | _ => .pyError
  else
    match (body.lookup "error").getD (.obj []) with
    | .obj errFields =>
        .apiError
          { code := (errFields.lookup "code").getD .null
            message := (errFields.lookup "message").getD .null
            details := .null }
    | _ => .pyError

/-- `TodoMeClient.login` applied to the parsed response body; its body is
line-for-line identical to `register` (only the URL differs). -/
def loginOutcome (body : List (String × Json)) : AuthOutcome :=
  if pyGetTruthy body "success" then
    match body.lookup "data" with
    | some (.obj dataFields) =>
        match dataFields.lookup "token" with
        | some tok => .ok tok
        | none => .pyError
    | _ => .pyError
  else
    match (body.lookup "error").getD (.obj []) with
    | .obj errFields =>
        .apiError
          { code := (errFields.lookup "code").getD .null
            message := (errFields.lookup "message").getD .null
            details := .null }
    | _ => .pyError

/-- A Python `datetime` argument, represented by what its `isoformat()`
returns (the only way the client uses it). -/
structure PyDatetime where
  iso : String

/-- The query-parameter dict built by `TodoMeClient.list_tasks` (lines
117-134 of `python-client.py`):

    params = \x7b"page": page, "limit": limit\x7d
    if status: params["status"] = status
    if priority_min: params["priority_min"] = priority_min
    if priority_max: params["priority_max"] = priority_max
    if project_id: params["project_ids"] = project_id
    if tag_ids: params["tag_ids"] = ",".join(tag_ids)
    if search: params["search"] = search
    if due_before: params["due_before"] = due_before.isoformat()
    if due_after: params["due_after"] = due_after.isoformat()

Each `if` is a Python truthiness test on the optional argument: `None`, `0`,
`""` and `[]` all fail it.  A `datetime` object is always truthy. -/
def list_tasks_params (status : Option String)
    (priority_min priority_max : Option Int) (project_id : Option String)
    (tag_ids : Option (List String)) (search : Option String)
    (due_before due_after : Option PyDatetime) (page limit : Int) :
    List (String × Json) :=
  let p0 : List (String × Json) := [("page", .num page), ("limit", .num limit)]
  let p1 := match status with
            | some s => if s = "" then p0 else pyDictSet p0 "status" (.str s)
            | none => p0
  let p2 := match priority_min with
            | some n => if n = 0 then p1 else pyDictSet p1 "priority_min" (.num n)
            | none => p1
  let p3 := match priority_max with
            | some n => if n = 0 then p2 else pyDictSet p2 "priority_max" (.num n)
            | none => p2
  let p4 := match project_id with
            | some s => if s = "" then p3 else pyDictSet p3 "project_ids" (.str s)
            | none => p3
  let p5 := match tag_ids with
            | some ts =>
                if ts.isEmpty then p4
                else pyDictSet p4 "tag_ids" (.str (String.intercalate "," ts))
            | none => p4
  let p6 := match search with
            | some s => if s = "" then p5 else pyDictSet p5 "search" (.str s)
            | none => p5
  let p7 := match due_before with
            | some d => pyDictSet p6 "due_before" (.str d.iso)
            | none => p6
  let p8 := match due_after with
            | some d => pyDictSet p7 "due_after" (.str d.iso)
            | none => p7
  p8

/-- The `GET /tasks` request dispatched by `TodoMeClient.list_tasks`. -/
def Client.list_tasks_request (c : Client) (status : Option String)
    (priority_min priority_max : Option Int) (project_id : Option String)
    (tag_ids : Option (List String)) (search : Option String)
    (due_before due_after : Option PyDatetime) (page limit : Int) :
    HttpRequest :=
  c.request_of "GET" "/tasks"
    (list_tasks_params status priority_min priority_max project_id tag_ids
      search due_before due_after page limit)
    none

/-- The JSON body built by `TodoMeClient.create_task` (lines 163-173 of
`python-client.py`):

    data = \x7b"title": title, "priority": priority\x7d
    if description: data["description"] = description
    if due_date: data["dueDate"] = due_date.isoformat()
    if project_id: data["projectId"] = project_id
    if tag_ids: data["tagIds"] = tag_ids

with the same Python truthiness tests as in `list_tasks` (the `priority`
argument defaults to 3 in the Python signature). -/
def create_task_body (title : String) (description : Option String)
    (priority : Int) (due_date : Option PyDatetime)
    (project_id : Option String) (tag_ids : Option (List String)) :
    List (String × Json) :=
  let d0 : List (String × Json) := [("title", .str title), ("priority", .num priority)]
  let d1 := match description with
            | some s => if s = "" then d0 else pyDictSet d0 "description" (.str s)
            | none => d0
  let d2 := match due_date with
            | some d => pyDictSet d1 "dueDate" (.str d.iso)
            | none => d1
  let d3 := match project_id with
            | some s => if s = "" then d2 else pyDictSet d2 "projectId" (.str s)
            | none => d2
  let d4 := match tag_ids with
            | some ts =>
                if ts.isEmpty then d3
                else pyDictSet d3 "tagIds" (.arr (ts.map .str))
            | none => d3
  d4

/-- The operations list built by `TodoMeClient.batch_complete` /
`batch_delete`:

    operations = [\x7b"action": action, "taskId": tid\x7d for tid in task_ids]
-/
def batch_operations (action : String) (task_ids : List String) : List Json :=
  task_ids.map (fun tid => .obj [("action", .str action), ("taskId", .str tid)])

/-- The single `POST /batch` request dispatched by
`TodoMeClient.batch_complete`; the code performs no emptiness check on
`task_ids` before calling `_request`. -/
def Client.batch_complete_request (c : Client) (task_ids : List String) :
    HttpRequest :=
  c.request_of "POST" "/batch" []
    (some (.obj [("operations", .arr (batch_operations "complete" task_ids))]))

/-- The single `POST /batch` request dispatched by
`TodoMeClient.batch_delete`; like `batch_complete` it performs no emptiness
check before calling `_request`. -/
def Client.batch_delete_request (c : Client) (task_ids : List String) :
    HttpRequest :=
  c.request_of "POST" "/batch" []
    (some (.obj [("operations", .arr (batch_operations "delete" task_ids))]))

/-! Lookup lemmas for the Python-dict operations. -/

/-- Looking up the key just assigned by `pyDictSet` yields the new value. -/
theorem lookup_pyDictSet_self (d : List (String × Json)) (k : String)
    (v : Json) : (pyDictSet d k v).lookup k = some v := by
  induction d with
  | nil => simp [pyDictSet, List.lookup]
  | cons hd tl ih =>
      obtain ⟨k', v'⟩ := hd
      by_cases h : k' = k
      · simp [pyDictSet, h, List.lookup]
      · have hb : (k == k') = false := beq_eq_false_iff_ne.mpr (Ne.symm h)
        simp [pyDictSet, h, List.lookup, hb, ih]

/-- Assigning one key with `pyDictSet` leaves lookups of any other key
unchanged. -/
theorem lookup_pyDictSet_ne (d : List (String × Json)) (k k' : String)
    (v : Json) (h : k' ≠ k) : (pyDictSet d k v).lookup k' = d.lookup k' := by
  have hb : (k' == k) = false := beq_eq_false_iff_ne.mpr h
  induction d with
  | nil => simp [pyDictSet, List.lookup, hb]
  | cons hd tl ih =>
      obtain ⟨k'', v''⟩ := hd
      by_cases hk : k'' = k
      · subst hk
        simp [pyDictSet, List.lookup, hb]
      · simp [pyDictSet, hk, List.lookup, ih]

/-- Looking up the header just assigned by `setHeader` yields the new
value. -/
theorem lookup_setHeader_self (hs : List (String × String)) (k v : String) :
    (setHeader hs k v).lookup k = some v := by
  induction hs with
  | nil => simp [setHeader, List.lookup]
  | cons hd tl ih =>
      obtain ⟨k', v'⟩ := hd
      by_cases h : k' = k
      · simp [setHeader, h, List.lookup]
      · have hb : (k == k') = false := beq_eq_false_iff_ne.mpr (Ne.symm h)
        simp [setHeader, h, List.lookup, hb, ih]

/-- Lookup distributes over an `if` on dicts (used to step through the
conditional assignments of the query builder). -/
theorem lookup_ite (c : Prop) [Decidable c] (a b : List (String × Json))
    (k : String) :
    (if c then a else b).lookup k = if c then a.lookup k else b.lookup k := by
  split <;> rfl

/-! Claims. -/

/-- C1: for every parsed response body whose `success` field is present and
true, the client's shared response path (`_request`, through which every
operation's response flows) returns exactly the value of the `data` field, or
an empty mapping when `data` is absent, and never raises. -/
theorem request_success_returns_data (body : List (String × Json))
    (h : body.lookup "success" = some (.bool true)) :
    ∃ d, unwrapEnvelope body = .ok d ∧
      (body.lookup "data" = some d ∨
        (body.lookup "data" = none ∧ d = .obj [])) := by
  refine ⟨(body.lookup "data").getD (.obj []), ?_, ?_⟩
  · simp [unwrapEnvelope, pyGetTruthy, h, Json.isTruthy]
  · cases hd : body.lookup "data" <;> simp [hd]

/-- Witness for C1: a concrete body with `success: true` and
`data: "x"` unwraps to `"x"`. -/
theorem request_success_returns_data_witness :
    ∃ d, unwrapEnvelope [("success", .bool true), ("data", .str "x")] =
        .ok d ∧
      (([(("success" : String), Json.bool true),
         ("data", Json.str "x")].lookup "data") = some d ∨
        (([(("success" : String), Json.bool true),
           ("data", Json.str "x")].lookup "data") = none ∧ d = .obj [])) :=
  request_success_returns_data _ rfl

/-- C3 (code bug, flagged in §9 of the spec): the claim says a supplied
`priority_min = 0` is kept in the query with value `0`; the code's truthiness
test drops it, so the built query for `priority_min = 0` and no other filter
is just the pagination defaults, with no `priority_min` key at all. -/
theorem priority_min_zero_dropped :
    list_tasks_params none (some 0) none none none none none none 1 20 =
        [("page", .num 1), ("limit", .num 20)] ∧
      (list_tasks_params none (some 0) none none none none none none
          1 20).lookup "priority_min" = none :=
  ⟨rfl, rfl⟩

/-- C4 counterexample: with an empty id list, `batch_complete` does not
reject before the network call — it hands `_request` a concrete `POST /batch`
request whose `operations` list is empty, so a request is submitted. -/
theorem empty_batch_submitted_counterexample :
    (Client.init "http://h/api" "tok").batch_complete_request [] =
      { method := "POST"
        url := "http://h/api/batch"
        headers := [("Authorization", "Bearer tok"),
                    ("Content-Type", "application/json")]
        params := []
        body := some (.obj [("operations", .arr [])]) } := rfl

/-- C4 amended: an empty id list is not rejected client-side; both batch
dispatchers submit a single `POST /batch` request whose `operations` list is
empty, leaving any rejection to the service. -/
theorem empty_batch_submits_empty_operations (c : Client) :
    (c.batch_complete_request []).body =
        some (.obj [("operations", .arr [])]) ∧
      (c.batch_delete_request []).body =
        some (.obj [("operations", .arr [])]) ∧
      (c.batch_complete_request []).method = "POST" ∧
      (c.batch_delete_request []).method = "POST" :=
  ⟨rfl, rfl, rfl, rfl⟩

/-- C6: each batch dispatcher submits, in a single request, an operations
sequence equal element for element and in order to mapping each id `i` to
`\x7baction, taskId: i\x7d`; for ids `["t1","t2","t3"]` and action `complete`
this is exactly the three-element sequence in input order. -/
theorem batch_operations_preserve_order (c : Client)
    (task_ids : List String) :
    (c.batch_complete_request task_ids).body =
        some (.obj [("operations", .arr (task_ids.map (fun tid =>
          .obj [("action", .str "complete"), ("taskId", .str tid)])))]) ∧
      (c.batch_delete_request task_ids).body =
        some (.obj [("operations", .arr (task_ids.map (fun tid =>
          .obj [("action", .str "delete"), ("taskId", .str tid)])))]) ∧
      batch_operations "complete" ["t1", "t2", "t3"] =
        [.obj [("action", .str "complete"), ("taskId", .str "t1")],
         .obj [("action", .str "complete"), ("taskId", .str "t2")],
         .obj [("action", .str "complete"), ("taskId", .str "t3")]] :=
  ⟨rfl, rfl, rfl⟩

/-- C8 (code bug, flagged in §9 of the spec): the claim says a supplied falsy
optional field such as an empty-string description is included in the
`create_task` body; the code's truthiness test drops it, so the body for
`create_task("Buy milk", description="")` is exactly title and priority, with
no `description` key. -/
theorem empty_description_dropped :
    create_task_body "Buy milk" (some "") 3 none none none =
        [("title", .str "Buy milk"), ("priority", .num 3)] ∧
      (create_task_body "Buy milk" (some "") 3 none none none).lookup
        "description" = none :=
  ⟨rfl, rfl⟩

/-- C9: with no optional filters supplied (and the default `page = 1`,
`limit = 20`), the query built by `list_tasks` is exactly
`\x7bpage: 1, limit: 20\x7d` and nothing else. -/
theorem no_filters_default_params :
    list_tasks_params none none none none none none none none 1 20 =
      [("page", .num 1), ("limit", .num 20)] := rfl

/-- Well-formedness of a response body for the failure path: the `error`
field, when present, is a JSON object.  (The Python code calls `.get` on it,
so any other shape raises `AttributeError` instead of `TodoMeError`.) -/
def errorFieldDictOrAbsent (body : List (String × Json)) : Prop :=
  match body.lookup "error" with
  | none => True
  | some (.obj _) => True
  | some _ => False

/-- C2 counterexample: for the body `\x7bsuccess: false\x7d` (error object
absent), `register` raises with `code = None` and `message = None`, not the
claimed defaults `"UNKNOWN_ERROR"` and `"Unknown error"`. -/
theorem register_no_default_counterexample :
    registerOutcome [("success", .bool false)] =
        .apiError ⟨.null, .null, .null⟩ ∧
      Json.null ≠ Json.str "UNKNOWN_ERROR" ∧
      Json.null ≠ Json.str "Unknown error" :=
  ⟨rfl, fun h => Json.noConfusion h, fun h => Json.noConfusion h⟩

/-- C2 amended: for every body whose `success` field is false or absent (and
whose `error` field, when present, is an object), operations routed through
`_request` raise with `code` defaulting to `UNKNOWN_ERROR`, `message`
defaulting to `"Unknown error"` and `details` passed through (unset when
absent); `register` and `login` instead raise with `code` and `message` taken
verbatim from the error object, unset (Python `None`) when absent, and never
set `details`. -/
theorem failure_raises_defaults_except_auth (body : List (String × Json))
    (hs : body.lookup "success" = some (.bool false) ∨
      body.lookup "success" = none)
    (he : errorFieldDictOrAbsent body) :
    ∃ errFields : List (String × Json),
      (body.lookup "error" = some (.obj errFields) ∨
        (body.lookup "error" = none ∧ errFields = [])) ∧
      unwrapEnvelope body = .apiError
        { code := (errFields.lookup "code").getD (.str "UNKNOWN_ERROR")
          message := (errFields.lookup "message").getD (.str "Unknown error")
          details := (errFields.lookup "details").getD .null } ∧
      registerOutcome body = .apiError
        { code := (errFields.lookup "code").getD .null
          message := (errFields.lookup "message").getD .null
          details := .null } ∧
      loginOutcome body = .apiError
        { code := (errFields.lookup "code").getD .null
          message := (errFields.lookup "message").getD .null
          details := .null } := by
  have hfalse : pyGetTruthy body "success" = false := by
    rcases hs with h | h <;> simp [pyGetTruthy, h, Json.isTruthy]
  rcases herr : body.lookup "error" with _ | (_ | b | n | s | es | errFields)
  · exact ⟨[], Or.inr ⟨rfl, rfl⟩,
      by simp [unwrapEnvelope, hfalse, herr],
      by simp [registerOutcome, hfalse, herr],
      by simp [loginOutcome, hfalse, herr]⟩
  · simp [errorFieldDictOrAbsent, herr] at he
  · simp [errorFieldDictOrAbsent, herr] at he
  · simp [errorFieldDictOrAbsent, herr] at he
  · simp [errorFieldDictOrAbsent, herr] at he
  · simp [errorFieldDictOrAbsent, herr] at he
  · exact ⟨errFields, Or.inl rfl,
      by simp [unwrapEnvelope, hfalse, herr],
      by simp [registerOutcome, hfalse, herr],
      by simp [loginOutcome, hfalse, herr]⟩

/-- Witness for the amended C2, at the body `\x7bsuccess: false\x7d`. -/
theorem failure_raises_defaults_except_auth_witness :
    ∃ errFields : List (String × Json),
      (List.lookup "error" [(("success" : String), Json.bool false)] =
          some (.obj errFields) ∨
        (List.lookup "error" [(("success" : String), Json.bool false)] =
          none ∧ errFields = [])) ∧
      unwrapEnvelope [("success", .bool false)] = .apiError
        { code := (errFields.lookup "code").getD (.str "UNKNOWN_ERROR")
          message := (errFields.lookup "message").getD (.str "Unknown error")
          details := (errFields.lookup "details").getD .null } ∧
      registerOutcome [("success", .bool false)] = .apiError
        { code := (errFields.lookup "code").getD .null
          message := (errFields.lookup "message").getD .null
          details := .null } ∧
      loginOutcome [("success", .bool false)] = .apiError
        { code := (errFields.lookup "code").getD .null
          message := (errFields.lookup "message").getD .null
          details := .null } :=
  failure_raises_defaults_except_auth _ (Or.inl rfl) trivial

/-- C5: after a `refresh_token` call whose response envelope succeeds with a
payload carrying a new string token `t`, the call returns `t`, the client's
next request (any method, endpoint, params and body) attaches
`Authorization: Bearer t`, and that header differs from any previous header
value other than `Bearer t` itself. -/
theorem refresh_updates_bearer (c : Client) (body fs : List (String × Json))
    (t oldAuth method endpoint : String) (params : List (String × Json))
    (bdy : Option Json)
    (h1 : unwrapEnvelope body = .ok (.obj fs))
    (h2 : fs.lookup "token" = some (.str t))
    (hne : oldAuth ≠ "Bearer " ++ t) :
    (c.refresh_token body).2 = .ok (.str t) ∧
      ((c.refresh_token body).1.request_of method endpoint params
        bdy).headers.lookup "Authorization" = some ("Bearer " ++ t) ∧
      ((c.refresh_token body).1.request_of method endpoint params
        bdy).headers.lookup "Authorization" ≠ some oldAuth := by
  have hr : c.refresh_token body =
      ({ c with
          headers := setHeader c.headers "Authorization" ("Bearer " ++ t) },
       .ok (.str t)) := by
    simp [Client.refresh_token, h1, h2, pyStr]
  refine ⟨by simp [hr], ?_, ?_⟩
  · simp [hr, Client.request_of, lookup_setHeader_self]
  · intro h
    rw [hr] at h
    simp [Client.request_of, lookup_setHeader_self] at h
    exact hne h.symm

/-- Witness for C5: a concrete refresh from token `old` to token `new`. -/
theorem refresh_updates_bearer_witness :
    ((Client.init "http://h" "old").refresh_token
        [("success", .bool true),
         ("data", .obj [("token", .str "new")])]).2 = .ok (.str "new") ∧
      (((Client.init "http://h" "old").refresh_token
          [("success", .bool true),
           ("data", .obj [("token", .str "new")])]).1.request_of "GET"
          "/tasks" [] none).headers.lookup "Authorization" =
        some ("Bearer " ++ "new") ∧
      (((Client.init "http://h" "old").refresh_token
          [("success", .bool true),
           ("data", .obj [("token", .str "new")])]).1.request_of "GET"
          "/tasks" [] none).headers.lookup "Authorization" ≠
        some "Bearer old" :=
  refresh_updates_bearer _ _ [("token", Json.str "new")] "new" "Bearer old"
    "GET" "/tasks" [] none rfl rfl (by decide)

/-- C7 counterexample: with `project_id = "p1"` supplied, the built query has
no `project_id` key at all — the value is keyed `project_ids`. -/
theorem project_id_key_counterexample :
    (list_tasks_params none none none (some "p1") none none none none
        1 20).lookup "project_id" = none ∧
      (list_tasks_params none none none (some "p1") none none none none
        1 20).lookup "project_ids" = some (.str "p1") :=
  ⟨rfl, rfl⟩

/-- C7 amended: for every `list_tasks` call supplying a non-empty
`project_id` (the truthiness test drops an empty string), the built query
contains the supplied value unchanged, but under the parameter name
`project_ids`, not `project_id`. -/
theorem project_id_sent_as_project_ids (status : Option String)
    (priority_min priority_max : Option Int) (pid : String)
    (tag_ids : Option (List String)) (search : Option String)
    (due_before due_after : Option PyDatetime) (page limit : Int)
    (hp : pid ≠ "") :
    (list_tasks_params status priority_min priority_max (some pid) tag_ids
      search due_before due_after page limit).lookup "project_ids" =
      some (.str pid) := by
  cases tag_ids <;> cases search <;> cases due_before <;> cases due_after <;>
    simp [list_tasks_params, hp, lookup_ite, lookup_pyDictSet_self,
      lookup_pyDictSet_ne]

/-- Witness for the amended C7, at `project_id = "p1"` with no other
filters. -/
theorem project_id_sent_as_project_ids_witness :
    (list_tasks_params none none none (some "p1") none none none none
      1 20).lookup "project_ids" = some (.str "p1") :=
  project_id_sent_as_project_ids none none none "p1" none none none none
    1 20 (by decide)

/-- C10: whenever `refresh_token` does not succeed — the envelope reports
failure, the payload is not a dict, or the payload lacks a `token` field —
the client state (so in particular its stored bearer credential) is left
unchanged. -/
theorem refresh_failure_keeps_credential (c : Client)
    (body : List (String × Json))
    (h : ∀ t, (c.refresh_token body).2 ≠ RefreshOutcome.ok t) :
    (c.refresh_token body).1 = c := by
  rcases he : unwrapEnvelope body with d | e | _
  · rcases d with _ | b | n | s | es | fs
    · simp [Client.refresh_token, he]
    · simp [Client.refresh_token, he]
    · simp [Client.refresh_token, he]
    · simp [Client.refresh_token, he]
    · simp [Client.refresh_token, he]
    · rcases ht : fs.lookup "token" with _ | tok
      · simp [Client.refresh_token, he, ht]
      · exact absurd (by simp [Client.refresh_token, he, ht]) (h tok)
  · simp [Client.refresh_token, he]
  · simp [Client.refresh_token, he]

/-- Witness for C10: a concrete failing refresh (envelope reports failure)
leaves the concrete client unchanged. -/
theorem refresh_failure_keeps_credential_witness :
    ((Client.init "http://h" "old").refresh_token
      [("success", .bool false)]).1 = Client.init "http://h" "old" :=
  refresh_failure_keeps_credential _ _
    (fun _ h => RefreshOutcome.noConfusion h)



